import Mathlib

/-!
Shallow embedding of the ReviewMate REST API (`src/main.py`): a Flask app
over two MySQL tables, `businesses` and `reviews`.  The database state is
modelled as two lists of rows plus the SERIAL counters; each HTTP handler
becomes a Lean function from state and request data to (new state and) a
response.  JSON response bodies are association lists of field names to
JSON values; an unhandled exception in a handler without a try/except
(read handlers) is modelled as `none`.
-/

namespace ReviewMate

/-- A JSON scalar value as it appears in a response body or request body:
either a JSON number (integer) or a JSON string. -/
inductive JVal where
  | jint (n : Int)
  | jstr (s : String)
deriving DecidableEq, Repr

/-- Is this JSON value an integer? -/
def JVal.isJInt : JVal → Bool
  | .jint _ => true
  | .jstr _ => false

/-- A flat JSON object: ordered field list, as Python dicts serialise. -/
abbrev Obj := List (String × JVal)

/-- Look up a field of a JSON object by name (first occurrence). -/
def lookupField (o : Obj) (k : String) : Option JVal :=
  (o.find? (fun p => p.1 == k)).map (fun p => p.2)

/-- A row of the `businesses` table.  `zip_code` is a `VARCHAR(5)` column,
so it is stored as a string. -/
structure Business where
  id : Int
  owner_id : Int
  name : String
  street_address : String
  city : String
  state : String
  zip_code : String
deriving DecidableEq, Repr

/-- A row of the `reviews` table. -/
structure Review where
  id : Int
  user_id : Int
  business_id : Int
  stars : Int
  review_text : String
deriving DecidableEq, Repr

/-- The database state: the two tables (in insertion order, which is the
order an unordered `SELECT *` returns) and the SERIAL auto-increment
counters for the two `id` columns. -/
structure DBState where
  businesses : List Business
  reviews : List Review
  nextBusinessId : Int
  nextReviewId : Int
deriving DecidableEq, Repr

/-- The empty database right after `create_table`. -/
def initialState : DBState := ⟨[], [], 1, 1⟩

/-- An HTTP response: a JSON object body with a status code, a JSON array
of objects with a status code (the unpaginated listings), a paginated
body `{"entries": [...], "next": url?}` with a status code, or the empty
`('', 204)` body. -/
inductive Response where
  | obj (body : Obj) (status : Nat)
  | arr (items : List Obj) (status : Nat)
  | page (entries : List Obj) (next : Option String) (status : Nat)
  | noContent
deriving DecidableEq, Repr

/-- The HTTP status code of a response. -/
def Response.status : Response → Nat
  | .obj _ s => s
  | .arr _ s => s
  | .page _ _ s => s
  | .noContent => 204

/-- `{'Error': 'No business with this business_id exists'}`. -/
def ERROR_NOT_FOUND : Obj :=
  [("Error", .jstr "No business with this business_id exists")]

/-- `{"Error": "No review with this review_id exists"}`. -/
def ERROR_REVIEW_NOT_FOUND : Obj :=
  [("Error", .jstr "No review with this review_id exists")]

/-- `{'Error': 'The request body is missing at least one of the required attributes'}`. -/
def ERROR_BAD_REQUEST : Obj :=
  [("Error", .jstr "The request body is missing at least one of the required attributes")]

/-- The duplicate-review conflict body. -/
def ERROR_CONFLICT : Obj :=
  [("Error", .jstr "You have already submitted a review for this business. You can update your previous review, or delete it and submit a new review")]

/-- `{'Error': 'No valid fields provided to update'}` (in `put_review`). -/
def ERROR_NO_VALID_FIELDS : Obj :=
  [("Error", .jstr "No valid fields provided to update")]

/-- The generic 500 body of the business write handlers. -/
def ERROR_UNABLE_CREATE_BUSINESS : Obj :=
  [("Error", .jstr "Unable to create business")]

/-- The generic 500 body of `post_review`'s except-branch. -/
def ERROR_UNABLE_CREATE_REVIEW : Obj :=
  [("Error", .jstr "Unable to create review")]

/-- SQLAlchemy's `one_or_none()`: `some none` for an empty result, the
row for a singleton, and `none` (a raised `MultipleResultsFound`) when
more than one row matches. -/
def oneOrNone? {α : Type} : List α → Option (Option α)
  | [] => some none
  | [a] => some (some a)
  | _ :: _ :: _ => none

/-- Python's `xs[:n]` slice: for `n ≥ 0` the first `n` elements, for
negative `n` everything but the last `-n` elements. -/
def pySliceTo {α : Type} (xs : List α) (n : Int) : List α :=
  if 0 ≤ n then xs.take n.toNat
  else xs.take ((xs.length : Int) + n).toNat

/-- `SELECT * FROM t LIMIT :lim OFFSET :off` against a table in natural
order: MySQL rejects negative bind values for LIMIT/OFFSET (`none` =
statement error), otherwise skips `off` rows and returns up to `lim`. -/
def sqlWindow {α : Type} (rows : List α) (lim off : Int) : Option (List α) :=
  if lim < 0 || off < 0 then none
  else some ((rows.drop off.toNat).take lim.toNat)

/-- The continuation URL `f"{base_url}?offset={off}&limit={lim}"` built by
both listing handlers. -/
def nextUrl (base : String) (off lim : Int) : String :=
  base ++ "?offset=" ++ toString off ++ "&limit=" ++ toString lim

/-- One decimal digit of a Python `int()` argument. -/
def decDigit? (c : Char) : Option Nat :=
  if c.isDigit then some (c.toNat - Char.toNat '0') else none

/-- Accumulate decimal digits left to right; `none` on a non-digit. -/
def decNat? : List Char → Nat → Option Nat
  | [], acc => some acc
  | c :: cs, acc =>
    match decDigit? c with
    | none => none
    | some d => decNat? cs (acc * 10 + d)

/-- Python's `int()` on a string, restricted to an optional minus sign
followed by decimal digits (the shape the stored 5-character zip codes
take); anything else raises `ValueError`, modelled as `none`. -/
def pyInt? (s : String) : Option Int :=
  match s.data with
  | [] => none
  | '-' :: cs => if cs.isEmpty then none else (decNat? cs 0).map (fun n => -(n : Int))
  | cs => (decNat? cs 0).map (fun n => (n : Int))

/-- The JSON body of a business create/replace request; `none` marks a
field absent from the body (a `KeyError` on access).  The columns other
than `zip_code` are typed by their table columns; `zip_code` targets a
`VARCHAR` column, and the client may send it as a JSON number or string,
so its value is kept as a `JVal`. -/
structure BusinessContent where
  owner_id : Option Int
  name : Option String
  street_address : Option String
  city : Option String
  state : Option String
  zip_code : Option JVal
deriving DecidableEq, Repr

/-- Storing a JSON value into a `VARCHAR` column stringifies numbers. -/
def jvalToDbStr : JVal → String
  | .jint n => toString n
  | .jstr s => s

/-- The JSON body of a review create request (`post_review`). -/
structure ReviewContent where
  user_id : Option Int
  business_id : Option Int
  stars : Option Int
  review_text : Option String
deriving DecidableEq, Repr

/-- The JSON body of a review update request (`put_review`). -/
structure ReviewPutContent where
  stars : Option Int
  review_text : Option String
deriving DecidableEq, Repr

/-! ## Business handlers -/

/-- `POST /businesses` (`post_businesses`): insert the row with the next
SERIAL id, return the echoed content plus the id and a `self` URL with
status 201; any missing field raises `KeyError` before the insert and is
caught as a 400.  `base` is `request.base_url`. -/
def post_businesses (st : DBState) (base : String) (c : BusinessContent) :
    DBState × Response :=
  match c.owner_id, c.name, c.street_address, c.city, c.state, c.zip_code with
  | some o, some nm, some sa, some ci, some s2, some z =>
    let bid := st.nextBusinessId
    let b : Business := ⟨bid, o, nm, sa, ci, s2, jvalToDbStr z⟩
    ({ st with businesses := st.businesses ++ [b], nextBusinessId := bid + 1 },
     .obj [("id", .jint bid), ("owner_id", .jint o), ("name", .jstr nm),
           ("street_address", .jstr sa), ("city", .jstr ci), ("state", .jstr s2),
           ("zip_code", z), ("self", .jstr (base ++ "/" ++ toString bid))] 201)
  | _, _, _, _, _, _ => (st, .obj ERROR_BAD_REQUEST 400)

/-- `GET /businesses/{id}` (`get_business`): 404 when no row matches,
otherwise the row with `zip_code` coerced by Python's `int()` (an
unparsable stored string raises, and the handler has no try/except:
`none`) and a `self` URL.  `root` is `request.url_root`. -/
def get_business (st : DBState) (root : String) (id : Int) : Option Response :=
  match oneOrNone? (st.businesses.filter (fun b => b.id == id)) with
  | none => none
  | some none => some (.obj ERROR_NOT_FOUND 404)
  | some (some b) =>
    match pyInt? b.zip_code with
    | none => none
    | some z =>
      some (.obj [("id", .jint b.id), ("owner_id", .jint b.owner_id),
                  ("name", .jstr b.name), ("street_address", .jstr b.street_address),
                  ("city", .jstr b.city), ("state", .jstr b.state),
                  ("zip_code", .jint z),
                  ("self", .jstr (root ++ "businesses/" ++ toString id))] 200)

/-- `PUT /businesses/{id}` (`put_business`): look the row up first
(`one_or_none`, duplicates raise and are caught as a 500); 404 when
absent; only then read the body — a missing field raises `KeyError`
before the UPDATE executes, caught as 400; otherwise overwrite every
column of the matching rows and return the echoed content with 200. -/
def put_business (st : DBState) (root : String) (id : Int) (c : BusinessContent) :
    DBState × Response :=
  match oneOrNone? (st.businesses.filter (fun b => b.id == id)) with
  | none => (st, .obj ERROR_UNABLE_CREATE_BUSINESS 500)
  | some none => (st, .obj ERROR_NOT_FOUND 404)
  | some (some _) =>
    match c.owner_id, c.name, c.street_address, c.city, c.state, c.zip_code with
    | some o, some nm, some sa, some ci, some s2, some z =>
      let businesses' := st.businesses.map (fun b =>
        if b.id == id then
          { b with owner_id := o, name := nm, street_address := sa,
                   city := ci, state := s2, zip_code := jvalToDbStr z }
        else b)
      ({ st with businesses := businesses' },
       .obj [("id", .jint id), ("owner_id", .jint o), ("name", .jstr nm),
             ("street_address", .jstr sa), ("city", .jstr ci), ("state", .jstr s2),
             ("zip_code", z),
             ("self", .jstr (root ++ "businesses/" ++ toString id))] 200)
    | _, _, _, _, _, _ => (st, .obj ERROR_BAD_REQUEST 400)

/-- `DELETE /businesses/{id}` (`delete_business`): unconditionally delete
every review whose `business_id` matches, then the business rows, commit
both; 204 when the business DELETE's rowcount is exactly 1, else 404. -/
def delete_business (st : DBState) (id : Int) : DBState × Response :=
  let reviews' := st.reviews.filter (fun r => !(r.business_id == id))
  let deleted := st.businesses.countP (fun b => b.id == id)
  let businesses' := st.businesses.filter (fun b => !(b.id == id))
  let st' := { st with businesses := businesses', reviews := reviews' }
  if deleted == 1 then (st', .noContent)
  else (st', .obj ERROR_NOT_FOUND 404)

/-- One entry of the paginated business listing: the row dict with
`zip_code` coerced by `int()` (which may raise) and a `self` URL. -/
def businessEntry (root : String) (b : Business) : Option Obj :=
  (pyInt? b.zip_code).map (fun z =>
    [("id", .jint b.id), ("owner_id", .jint b.owner_id), ("name", .jstr b.name),
     ("street_address", .jstr b.street_address), ("city", .jstr b.city),
     ("state", .jstr b.state), ("zip_code", .jint z),
     ("self", .jstr (root ++ "businesses/" ++ toString b.id))])

/-- The `for row in rows[:limit]` shaping loop of `get_businesses`: an
`int()` failure anywhere aborts the whole request. -/
def shapeBusinessRows (root : String) : List Business → Option (List Obj)
  | [] => some []
  | b :: bs =>
    match businessEntry root b, shapeBusinessRows root bs with
    | some e, some es => some (e :: es)
    | _, _ => none

/-- `GET /businesses?offset=&limit=` (`get_businesses`): fetch
`limit + 1` rows at `offset`, shape the first `limit` of them, and add a
`next` URL at `offset + limit` with the same `limit` exactly when the
fetch returned more than `limit` rows. -/
def get_businesses (st : DBState) (root base : String) (offset limit : Int) :
    Option Response :=
  match sqlWindow st.businesses (limit + 1) offset with
  | none => none
  | some rows =>
    match shapeBusinessRows root (pySliceTo rows limit) with
    | none => none
    | some entries =>
      some (.page entries
        (if (rows.length : Int) > limit
         then some (nextUrl base (offset + limit) limit)
         else none) 200)

/-- One entry of the owner-scoped listing (`get_bussiness_by_owner`):
the raw row dict — `zip_code` stays the stored string — plus `self`. -/
def ownerBusinessEntry (root : String) (b : Business) : Obj :=
  [("id", .jint b.id), ("owner_id", .jint b.owner_id), ("name", .jstr b.name),
   ("street_address", .jstr b.street_address), ("city", .jstr b.city),
   ("state", .jstr b.state), ("zip_code", .jstr b.zip_code),
   ("self", .jstr (root ++ "businesses/" ++ toString b.id))]

/-- `GET /owners/{id}/businesses` (`get_bussiness_by_owner`, name as in
the source): every business of the owner, unpaginated, as a JSON array. -/
def get_bussiness_by_owner (st : DBState) (root : String) (oid : Int) : Response :=
  .arr ((st.businesses.filter (fun b => b.owner_id == oid)).map
    (ownerBusinessEntry root)) 200

/-! ## Review handlers -/

/-- `POST /reviews` (`post_review`): 400 when `user_id`, `business_id` or
`stars` is missing; 404 when the referenced business does not exist; 409
when a review for the same `(user_id, business_id)` pair already exists;
otherwise the INSERT runs — a `stars` value outside the table's
`CHECK (stars BETWEEN 0 and 5)` makes the store reject it, which the
handler's `except Exception` turns into a 500 with nothing committed;
within range the row is inserted (with `review_text` defaulting to `""`)
and the answer is 201 with a `business` URL in place of the raw id and a
`self` URL.  `base` is `request.base_url`, `root` is
`request.host_url`. -/
def post_review (st : DBState) (base root : String) (c : ReviewContent) :
    DBState × Response :=
  match c.user_id, c.business_id, c.stars with
  | some u, some b, some s =>
    if !(st.businesses.any (fun x => x.id == b)) then
      (st, .obj ERROR_NOT_FOUND 404)
    else if st.reviews.any (fun r => r.user_id == u && r.business_id == b) then
      (st, .obj ERROR_CONFLICT 409)
    else if 0 ≤ s ∧ s ≤ 5 then
      let rid := st.nextReviewId
      let r : Review := ⟨rid, u, b, s, c.review_text.getD ""⟩
      ({ st with reviews := st.reviews ++ [r], nextReviewId := rid + 1 },
       .obj [("id", .jint rid), ("user_id", .jint u),
             ("business", .jstr (root ++ "businesses/" ++ toString b)),
             ("stars", .jint s),
             ("review_text", .jstr (c.review_text.getD "")),
             ("self", .jstr (base ++ "/" ++ toString rid))] 201)
    else (st, .obj ERROR_UNABLE_CREATE_REVIEW 500)
  | _, _, _ => (st, .obj ERROR_BAD_REQUEST 400)

/-- `GET /reviews/{id}` (`get_review`): 404 with the review-specific
message when no row matches; otherwise the row reshaped with a `business`
URL replacing `business_id` and a `self` URL.  `root` is
`request.host_url`. -/
def get_review (st : DBState) (root : String) (id : Int) : Option Response :=
  match oneOrNone? (st.reviews.filter (fun r => r.id == id)) with
  | none => none
  | some none => some (.obj ERROR_REVIEW_NOT_FOUND 404)
  | some (some r) =>
    some (.obj [("id", .jint r.id), ("user_id", .jint r.user_id),
                ("business", .jstr (root ++ "businesses/" ++ toString r.business_id)),
                ("stars", .jint r.stars),
                ("review_text", .jstr r.review_text),
                ("self", .jstr (root ++ "reviews/" ++ toString id))] 200)

/-- The `update_parts` list built by `put_review` from the body. -/
def updateParts (c : ReviewPutContent) : List String :=
  (if c.stars.isSome then ["stars = :stars"] else []) ++
  (if c.review_text.isSome then ["review_text = :review_text"] else [])

/-- The row transformation of `put_review`'s dynamic
`UPDATE reviews SET <update_parts> WHERE id = :id`: each present field
overwrites the stored one. -/
def applyReviewUpdate (c : ReviewPutContent) (r : Review) : Review :=
  { r with stars := c.stars.getD r.stars,
           review_text := c.review_text.getD r.review_text }

/-- `PUT /reviews/{id}` (`put_review`): 400 when `stars` is absent; then
the (dead) empty-`update_parts` 400; 404 when the id matches no row; else
the UPDATE runs against the matching rows — a `stars` value outside the
table's `CHECK (stars BETWEEN 0 and 5)` makes the store reject it, and
this handler has no try/except, so nothing is committed and the fault is
unhandled (`none`); within range the update commits, the row is
re-fetched with `one_or_none` (a duplicate id would raise after the
commit: response `none`, state already changed) and the reshaped row is
returned with 200.  `root` is `request.host_url`. -/
def put_review (st : DBState) (root : String) (id : Int) (c : ReviewPutContent) :
    DBState × Option Response :=
  match c.stars with
  | none => (st, some (.obj ERROR_BAD_REQUEST 400))
  | some s =>
    if updateParts c == [] then
      (st, some (.obj ERROR_NO_VALID_FIELDS 400))
    else if !(st.reviews.any (fun r => r.id == id)) then
      (st, some (.obj ERROR_REVIEW_NOT_FOUND 404))
    else if 0 ≤ s ∧ s ≤ 5 then
      let reviews' := st.reviews.map (fun r =>
        if r.id == id then applyReviewUpdate c r else r)
      let st' := { st with reviews := reviews' }
      match oneOrNone? (reviews'.filter (fun r => r.id == id)) with
      | none => (st', none)
      | some none => (st', some (.obj ERROR_REVIEW_NOT_FOUND 404))
      | some (some r) =>
        (st', some (.obj
          [("id", .jint r.id), ("user_id", .jint r.user_id),
           ("business", .jstr (root ++ "businesses/" ++ toString r.business_id)),
           ("stars", .jint r.stars),
           ("review_text", .jstr r.review_text),
           ("self", .jstr (root ++ "reviews/" ++ toString id))] 200))
    else (st, none)

/-- `DELETE /reviews/{id}` (`delete_review`): delete by id, 204 when the
rowcount is exactly 1, else the review-specific 404. -/
def delete_review (st : DBState) (id : Int) : DBState × Response :=
  let deleted := st.reviews.countP (fun r => r.id == id)
  let reviews' := st.reviews.filter (fun r => !(r.id == id))
  let st' := { st with reviews := reviews' }
  if deleted == 1 then (st', .noContent)
  else (st', .obj ERROR_REVIEW_NOT_FOUND 404)

/-- One entry of the global review listing (`get_reviews`): the raw row
dict — `business_id` kept as-is, no `business` URL — plus `self`. -/
def reviewListEntry (root : String) (r : Review) : Obj :=
  [("id", .jint r.id), ("user_id", .jint r.user_id),
   ("business_id", .jint r.business_id), ("stars", .jint r.stars),
   ("review_text", .jstr r.review_text),
   ("self", .jstr (root ++ "reviews/" ++ toString r.id))]

/-- `GET /reviews?offset=&limit=` (`get_reviews`): same pagination scheme
as the business listing, entries shaped with `self` only. -/
def get_reviews (st : DBState) (root base : String) (offset limit : Int) :
    Option Response :=
  match sqlWindow st.reviews (limit + 1) offset with
  | none => none
  | some rows =>
    some (.page ((pySliceTo rows limit).map (reviewListEntry root))
      (if (rows.length : Int) > limit
       then some (nextUrl base (offset + limit) limit)
       else none) 200)

/-! ## Sequential runs of the API's mutating operations -/

/-- One mutating API call with its request data (the URL strings do not
affect the database state, so they are fixed inside `step`). -/
inductive Op where
  | opPostBusiness (c : BusinessContent)
  | opPutBusiness (id : Int) (c : BusinessContent)
  | opDeleteBusiness (id : Int)
  | opPostReview (c : ReviewContent)
  | opPutReview (id : Int) (c : ReviewPutContent)
  | opDeleteReview (id : Int)
deriving DecidableEq, Repr

/-- The state after one operation (read-only handlers leave the state
unchanged and are omitted). -/
def step (st : DBState) : Op → DBState
  | .opPostBusiness c => (post_businesses st "" c).1
  | .opPutBusiness id c => (put_business st "" id c).1
  | .opDeleteBusiness id => (delete_business st id).1
  | .opPostReview c => (post_review st "" "" c).1
  | .opPutReview id c => (put_review st "" id c).1
  | .opDeleteReview id => (delete_review st id).1

/-- The state reached by a sequential run from the empty tables. -/
def run (ops : List Op) : DBState := ops.foldl step initialState

/-- How many reviews a state holds for one `(user_id, business_id)` pair. -/
def pairCount (st : DBState) (u b : Int) : Nat :=
  st.reviews.countP (fun r => r.user_id == u && r.business_id == b)

/-- The uniqueness invariant: at most one review per pair. -/
def reviewPairUnique (st : DBState) : Prop :=
  ∀ u b : Int, pairCount st u b ≤ 1

/-! ## Helper lemmas -/

theorem pySliceTo_natCast {α : Type} (xs : List α) (n : Nat) :
    pySliceTo xs (n : Int) = xs.take n := by
  simp [pySliceTo]

theorem sqlWindow_natCast {α : Type} (rows : List α) (lim off : Nat) :
    sqlWindow rows (lim : Int) (off : Int) = some ((rows.drop off).take lim) := by
  simp [sqlWindow]

theorem shapeBusinessRows_of_parse (root : String) :
    ∀ l : List Business, (∀ b ∈ l, (pyInt? b.zip_code).isSome = true) →
      ∃ es, shapeBusinessRows root l = some es ∧ es.length = l.length := by
  intro l
  induction l with
  | nil => intro _; exact ⟨[], rfl, rfl⟩
  | cons b bs ih =>
    intro h
    obtain ⟨z, hz⟩ := Option.isSome_iff_exists.mp (h b (List.mem_cons_self b bs))
    obtain ⟨es, hes, hlen⟩ := ih (fun x hx => h x (List.mem_cons_of_mem b hx))
    rcases he0 : businessEntry root b with _ | e0
    · exact absurd he0 (by simp [businessEntry, hz])
    refine ⟨e0 :: es, ?_, ?_⟩
    · simp [shapeBusinessRows, he0, hes]
    · simp [hlen]

theorem shapeBusinessRows_zip_jint (root : String) :
    ∀ l : List Business, ∀ es, shapeBusinessRows root l = some es →
      ∀ e ∈ es, ∃ z : Int, lookupField e "zip_code" = some (.jint z) := by
  intro l
  induction l with
  | nil =>
    intro es hes e he
    obtain rfl : es = [] := by simpa [shapeBusinessRows] using hes.symm
    simp at he
  | cons b bs ih =>
    intro es hes e he
    rcases hz : businessEntry root b with _ | e0
    · simp [shapeBusinessRows, hz] at hes
    rcases hs : shapeBusinessRows root bs with _ | es0
    · simp [shapeBusinessRows, hz, hs] at hes
    simp only [shapeBusinessRows, hz, hs, Option.some.injEq] at hes
    subst hes
    rcases List.mem_cons.mp he with he0 | hes0
    · obtain ⟨z, hz2⟩ := Option.map_eq_some'.mp hz
      subst he0
      exact ⟨z, by simp [← hz2.2, lookupField, List.find?]⟩
    · exact ih es0 hs e hes0

theorem filter_map_applyReviewUpdate (c : ReviewPutContent) (id : Int) :
    ∀ l : List Review,
      ((l.map (fun r => if r.id == id then applyReviewUpdate c r else r)).filter
          (fun r => r.id == id))
        = (l.filter (fun r => r.id == id)).map (fun r => applyReviewUpdate c r) := by
  intro l
  induction l with
  | nil => rfl
  | cons a t ih =>
    cases h : a.id == id with
    | true =>
      have h1 : (if a.id == id then applyReviewUpdate c a else a) = applyReviewUpdate c a := by
        simp [h]
      have h2 : ((applyReviewUpdate c a).id == id) = true := h
      rw [List.map_cons, h1, List.filter_cons, List.filter_cons, if_pos h2, if_pos h,
        List.map_cons, ih]
    | false =>
      have hne : ¬((a.id == id) = true) := by simp [h]
      have h1 : (if a.id == id then applyReviewUpdate c a else a) = a := by
        simp [h]
      rw [List.map_cons, h1, List.filter_cons, List.filter_cons, if_neg hne, if_neg hne, ih]

theorem post_businesses_reviews (st : DBState) (base : String) (c : BusinessContent) :
    (post_businesses st base c).1.reviews = st.reviews := by
  rcases c with ⟨o, nm, sa, ci, s2, z⟩
  cases o <;> cases nm <;> cases sa <;> cases ci <;> cases s2 <;> cases z <;> rfl

theorem put_business_reviews (st : DBState) (root : String) (id : Int)
    (c : BusinessContent) : (put_business st root id c).1.reviews = st.reviews := by
  rcases c with ⟨o, nm, sa, ci, s2, z⟩
  unfold put_business
  rcases h : oneOrNone? (st.businesses.filter fun b => b.id == id) with _ | (_ | b) <;>
    simp only [h] <;>
    first
    | rfl
    | (cases o <;> cases nm <;> cases sa <;> cases ci <;> cases s2 <;> cases z <;> rfl)

theorem pairCount_post_businesses (st : DBState) (base : String) (c : BusinessContent)
    (u b : Int) : pairCount (post_businesses st base c).1 u b = pairCount st u b := by
  unfold pairCount
  rw [post_businesses_reviews]

theorem pairCount_put_business (st : DBState) (root : String) (id : Int)
    (c : BusinessContent) (u b : Int) :
    pairCount (put_business st root id c).1 u b = pairCount st u b := by
  unfold pairCount
  rw [put_business_reviews]

theorem delete_business_reviews (st : DBState) (id : Int) :
    (delete_business st id).1.reviews
      = st.reviews.filter (fun r => !(r.business_id == id)) := by
  unfold delete_business
  dsimp only
  split <;> rfl

theorem pairCount_delete_business (st : DBState) (id u b : Int) :
    pairCount (delete_business st id).1 u b ≤ pairCount st u b := by
  unfold pairCount
  rw [delete_business_reviews]
  exact (List.filter_sublist _).countP_le _

theorem delete_review_reviews (st : DBState) (id : Int) :
    (delete_review st id).1.reviews = st.reviews.filter (fun r => !(r.id == id)) := by
  unfold delete_review
  dsimp only
  split <;> rfl

theorem pairCount_delete_review (st : DBState) (id u b : Int) :
    pairCount (delete_review st id).1 u b ≤ pairCount st u b := by
  unfold pairCount
  rw [delete_review_reviews]
  exact (List.filter_sublist _).countP_le _

theorem put_review_reviews (st : DBState) (root : String) (id : Int)
    (c : ReviewPutContent) :
    (put_review st root id c).1.reviews = st.reviews ∨
    (put_review st root id c).1.reviews
      = st.reviews.map (fun r => if r.id == id then applyReviewUpdate c r else r) := by
  unfold put_review
  cases hs : c.stars with
  | none => exact Or.inl rfl
  | some s =>
    dsimp only
    split
    · exact Or.inl rfl
    split
    · exact Or.inl rfl
    by_cases hrg : 0 ≤ s ∧ s ≤ 5
    · rw [if_pos hrg]
      rcases h : oneOrNone? (List.filter (fun r => r.id == id)
          (List.map (fun r => if r.id == id then applyReviewUpdate c r else r)
            st.reviews))
        with _ | (_ | r) <;> simp only [h] <;> exact Or.inr trivial
    · rw [if_neg hrg]
      exact Or.inl rfl

theorem pairCount_put_review (st : DBState) (root : String) (id : Int)
    (c : ReviewPutContent) (u b : Int) :
    pairCount (put_review st root id c).1 u b = pairCount st u b := by
  rcases put_review_reviews st root id c with h | h <;> unfold pairCount <;> rw [h]
  rw [List.countP_map]
  have hp : ((fun r : Review => r.user_id == u && r.business_id == b) ∘
      (fun r => if r.id == id then applyReviewUpdate c r else r))
      = (fun r : Review => r.user_id == u && r.business_id == b) := by
    funext r
    cases hr : r.id == id <;> simp [Function.comp, hr, applyReviewUpdate]
  rw [hp]

theorem post_review_of_201 (st : DBState) (base root : String) (c : ReviewContent)
    (h : ((post_review st base root c).2).status = 201) :
    ∃ u b s, c.user_id = some u ∧ c.business_id = some b ∧ c.stars = some s ∧
      st.businesses.any (fun x => x.id == b) = true ∧
      st.reviews.any (fun r => r.user_id == u && r.business_id == b) = false ∧
      (0 ≤ s ∧ s ≤ 5) ∧
      (post_review st base root c).1
        = { st with
            reviews := st.reviews ++ [⟨st.nextReviewId, u, b, s, c.review_text.getD ""⟩],
            nextReviewId := st.nextReviewId + 1 } := by
  rcases c with ⟨cu, cb, cs, ct⟩
  cases cu with
  | none => exact absurd h (by simp [post_review, Response.status])
  | some u =>
  cases cb with
  | none => exact absurd h (by simp [post_review, Response.status])
  | some b =>
  cases cs with
  | none => exact absurd h (by simp [post_review, Response.status])
  | some s =>
  cases hb : st.businesses.any (fun x => x.id == b) with
  | false => exact absurd h (by simp [post_review, Response.status, hb])
  | true =>
  cases hr : st.reviews.any (fun r => r.user_id == u && r.business_id == b) with
  | true => exact absurd h (by simp [post_review, Response.status, hb, hr])
  | false =>
    by_cases hrg : 0 ≤ s ∧ s ≤ 5
    · exact ⟨u, b, s, rfl, rfl, rfl, hb, hr, hrg, by simp [post_review, hb, hr, hrg]⟩
    · exact absurd h (by simp [post_review, Response.status, hb, hr, hrg])

theorem reviewPairUnique_step (st : DBState) (op : Op)
    (h : reviewPairUnique st) : reviewPairUnique (step st op) := by
  intro u b
  cases op with
  | opPostBusiness c => rw [step, pairCount_post_businesses]; exact h u b
  | opPutBusiness id c => rw [step, pairCount_put_business]; exact h u b
  | opDeleteBusiness id => exact le_trans (pairCount_delete_business st id u b) (h u b)
  | opPutReview id c => rw [step, pairCount_put_review]; exact h u b
  | opDeleteReview id => exact le_trans (pairCount_delete_review st id u b) (h u b)
  | opPostReview c =>
    rcases c with ⟨cu, cb, cs, ct⟩
    show pairCount (post_review st "" "" ⟨cu, cb, cs, ct⟩).1 u b ≤ 1
    cases cu with
    | none => exact h u b
    | some u0 =>
    cases cb with
    | none => exact h u b
    | some b0 =>
    cases cs with
    | none => exact h u b
    | some s0 =>
    cases hb : st.businesses.any (fun x => x.id == b0) with
    | false => simpa [post_review, pairCount, hb] using h u b
    | true =>
    cases hr : st.reviews.any (fun r => r.user_id == u0 && r.business_id == b0) with
    | true => simpa [post_review, pairCount, hb, hr] using h u b
    | false =>
      by_cases hrg : 0 ≤ s0 ∧ s0 ≤ 5
      case neg => simpa [post_review, pairCount, hb, hr, hrg] using h u b
      have hstep : (post_review st "" "" ⟨some u0, some b0, some s0, ct⟩).1.reviews
          = st.reviews ++ [⟨st.nextReviewId, u0, b0, s0, ct.getD ""⟩] := by
        simp [post_review, hb, hr, hrg]
      unfold pairCount
      rw [hstep, List.countP_append]
      cases hp : ((⟨st.nextReviewId, u0, b0, s0, ct.getD ""⟩ : Review).user_id == u
          && (⟨st.nextReviewId, u0, b0, s0, ct.getD ""⟩ : Review).business_id == b) with
      | false =>
        have : List.countP (fun r : Review => r.user_id == u && r.business_id == b)
            [⟨st.nextReviewId, u0, b0, s0, ct.getD ""⟩] = 0 := by
          simp only [List.countP_cons, List.countP_nil, hp]
          rfl
        rw [this]
        exact h u b
      | true =>
        have hub : u0 = u ∧ b0 = b := by
          constructor <;> · have := hp; simp at this; simp [this]
        obtain ⟨rfl, rfl⟩ := hub
        have h0 : List.countP (fun r : Review => r.user_id == u0 && r.business_id == b0)
            st.reviews = 0 := by
          rw [List.countP_eq_zero]
          intro a ha
          have := (List.any_eq_false.mp hr) a ha
          simpa using this
        have h1 : List.countP (fun r : Review => r.user_id == u0 && r.business_id == b0)
            [⟨st.nextReviewId, u0, b0, s0, ct.getD ""⟩] ≤ 1 := by
          simp [List.countP_cons]
        omega

theorem reviewPairUnique_initial : reviewPairUnique initialState := by
  intro u b
  simp [pairCount, initialState]

theorem reviewPairUnique_run (ops : List Op) : reviewPairUnique (run ops) := by
  suffices h : ∀ st, reviewPairUnique st → reviewPairUnique (ops.foldl step st) from
    h initialState reviewPairUnique_initial
  induction ops with
  | nil => intro st h; exact h
  | cons op t ih => intro st h; exact ih _ (reviewPairUnique_step st op h)

theorem delete_business_businesses (st : DBState) (id : Int) :
    (delete_business st id).1.businesses
      = st.businesses.filter (fun b => !(b.id == id)) := by
  unfold delete_business
  dsimp only
  split <;> rfl

theorem delete_business_status (st : DBState) (id : Int) :
    (delete_business st id).2
      = (if st.businesses.countP (fun b => b.id == id) == 1 then Response.noContent
         else Response.obj ERROR_NOT_FOUND 404) := by
  unfold delete_business
  dsimp only
  split <;> rfl

/-- The JSON object body of a plain-object response (`[]` otherwise). -/
def Response.body : Response → Obj
  | .obj b _ => b
  | _ => []

theorem oneOrNone?_eq_singleton {α : Type} {l : List α} {a : α}
    (h : oneOrNone? l = some (some a)) : l = [a] := by
  match l with
  | [] => simp [oneOrNone?] at h
  | [x] =>
    simp only [oneOrNone?, Option.some.injEq] at h
    rw [h]
  | x :: y :: t => simp [oneOrNone?] at h

theorem get_reviews_nat (st : DBState) (root base : String) (offset limit : Nat) :
    get_reviews st root base offset limit
      = some (Response.page
          ((((st.reviews.drop offset).take (limit + 1)).take limit).map
            (reviewListEntry root))
          (if limit < ((st.reviews.drop offset).take (limit + 1)).length
           then some (nextUrl base ((offset : Int) + limit) limit) else none) 200) := by
  have hcast : ((limit : Int) + 1) = ((limit + 1 : Nat) : Int) := by push_cast; ring
  unfold get_reviews
  rw [hcast, sqlWindow_natCast]
  dsimp only
  rw [pySliceTo_natCast]
  simp [Nat.cast_lt]

theorem get_businesses_nat (st : DBState) (root base : String) (offset limit : Nat)
    (hz : ∀ b ∈ ((st.businesses.drop offset).take (limit + 1)).take limit,
      (pyInt? b.zip_code).isSome = true) :
    ∃ entries,
      shapeBusinessRows root (((st.businesses.drop offset).take (limit + 1)).take limit)
        = some entries ∧
      entries.length ≤ limit ∧
      get_businesses st root base offset limit
        = some (Response.page entries
            (if limit < ((st.businesses.drop offset).take (limit + 1)).length
             then some (nextUrl base ((offset : Int) + limit) limit) else none) 200) := by
  have hcast : ((limit : Int) + 1) = ((limit + 1 : Nat) : Int) := by push_cast; ring
  obtain ⟨entries, hsh, hlen⟩ := shapeBusinessRows_of_parse root _ hz
  refine ⟨entries, hsh, ?_, ?_⟩
  · rw [hlen, List.length_take]
    exact min_le_left _ _
  · unfold get_businesses
    rw [hcast, sqlWindow_natCast]
    dsimp only
    rw [pySliceTo_natCast, hsh]
    simp [Nat.cast_lt]

/-! ## Claims -/

/-- C2: `DELETE /businesses/{id}` first deletes every review whose
`business_id` equals `id`, then the business row, answering 204 exactly
when one business row was removed and 404 otherwise; the review deletions
are committed in every case, and after the delete a fetch of any review
that referenced the business answers the review-specific 404. -/
theorem C2_delete_business_cascade (st : DBState) (root : String) (id : Int) :
    (delete_business st id).1.reviews
      = st.reviews.filter (fun r => !(r.business_id == id)) ∧
    (delete_business st id).1.businesses
      = st.businesses.filter (fun b => !(b.id == id)) ∧
    (st.businesses.countP (fun b => b.id == id) = 1 →
      (delete_business st id).2 = Response.noContent) ∧
    (st.businesses.countP (fun b => b.id == id) ≠ 1 →
      (delete_business st id).2 = Response.obj ERROR_NOT_FOUND 404) ∧
    (∀ r ∈ st.reviews, r.business_id = id → (st.reviews.map Review.id).Nodup →
      get_review (delete_business st id).1 root r.id
        = some (Response.obj ERROR_REVIEW_NOT_FOUND 404)) := by
  refine ⟨delete_business_reviews st id, delete_business_businesses st id, ?_, ?_, ?_⟩
  · intro h
    rw [delete_business_status, if_pos (beq_iff_eq.mpr h)]
  · intro h
    rw [delete_business_status, if_neg (by simp [h])]
  · intro r hr hbid hnd
    have hf : (delete_business st id).1.reviews.filter (fun x => x.id == r.id) = [] := by
      rw [delete_business_reviews, List.filter_filter, List.filter_eq_nil_iff]
      intro a ha
      simp only [Bool.and_eq_true, beq_iff_eq, Bool.not_eq_true', beq_eq_false_iff_ne,
        ne_eq, not_and]
      intro haid
      have : a = r := List.inj_on_of_nodup_map hnd ha hr haid
      subst this
      simp [hbid]
    unfold get_review
    rw [hf]
    rfl

/-- C2 witness: on a concrete store, deleting business 1 answers 204 and
a review that referenced it afterwards fetches as review-not-found. -/
theorem C2_delete_business_cascade_witness :
    (delete_business ⟨[⟨1, 7, "B", "S", "C", "OR", "97330"⟩,
        ⟨2, 8, "B2", "S2", "C2", "WA", "98101"⟩],
      [⟨1, 5, 1, 4, "ok"⟩, ⟨2, 6, 2, 3, "x"⟩], 3, 3⟩ 1).2 = Response.noContent ∧
    get_review (delete_business ⟨[⟨1, 7, "B", "S", "C", "OR", "97330"⟩,
        ⟨2, 8, "B2", "S2", "C2", "WA", "98101"⟩],
      [⟨1, 5, 1, 4, "ok"⟩, ⟨2, 6, 2, 3, "x"⟩], 3, 3⟩ 1).1 "h/" 1
      = some (Response.obj ERROR_REVIEW_NOT_FOUND 404) :=
  ⟨(C2_delete_business_cascade _ "h/" 1).2.2.1 (by decide),
   (C2_delete_business_cascade _ "h/" 1).2.2.2.2 ⟨1, 5, 1, 4, "ok"⟩ (by decide) rfl
     (by decide)⟩

/-- C3: every state reachable by a sequential run of the mutating API
operations from empty tables has at most one review per
`(user_id, business_id)` pair; `POST /reviews` answers 201 only when no
review for the pair exists, and an immediately repeated identical POST
answers 409 Conflict without changing the state. -/
theorem C3_pair_uniqueness :
    (∀ ops : List Op, reviewPairUnique (run ops)) ∧
    (∀ (st : DBState) (base root : String) (c : ReviewContent) (u b : Int),
      c.user_id = some u → c.business_id = some b →
      ((post_review st base root c).2).status = 201 → pairCount st u b = 0) ∧
    (∀ (st : DBState) (base root : String) (c : ReviewContent),
      ((post_review st base root c).2).status = 201 →
      post_review (post_review st base root c).1 base root c
        = ((post_review st base root c).1, Response.obj ERROR_CONFLICT 409)) := by
  refine ⟨reviewPairUnique_run, ?_, ?_⟩
  · intro st base root c u b hcu hcb h201
    obtain ⟨u', b', s', hcu', hcb', _, _, hr, _, _⟩ := post_review_of_201 st base root c h201
    rw [hcu] at hcu'
    rw [hcb] at hcb'
    obtain rfl : u = u' := by injection hcu'
    obtain rfl : b = b' := by injection hcb'
    unfold pairCount
    rw [List.countP_eq_zero]
    intro a ha
    simpa using (List.any_eq_false.mp hr) a ha
  · intro st base root c h201
    obtain ⟨u, b, s, hcu, hcb, hcs, hbz, hr, hrg, hst⟩ :=
      post_review_of_201 st base root c h201
    rcases c with ⟨cu, cb, cs, ct⟩
    obtain rfl : cu = some u := hcu
    obtain rfl : cb = some b := hcb
    obtain rfl : cs = some s := hcs
    rw [hst]
    simp [post_review, hbz, List.any_append]

/-- C3 witness: a concrete run keeps the pair unique; a concrete first
POST leaves count 0 beforehand, and the repeated POST conflicts. -/
theorem C3_pair_uniqueness_witness :
    pairCount (run [Op.opPostBusiness ⟨some 7, some "B", some "S", some "C", some "OR",
        some (JVal.jstr "97330")⟩,
      Op.opPostReview ⟨some 2, some 1, some 5, none⟩,
      Op.opPostReview ⟨some 2, some 1, some 4, none⟩]) 2 1 ≤ 1 ∧
    pairCount ⟨[⟨1, 7, "B", "S", "C", "OR", "97330"⟩], [], 2, 1⟩ 2 1 = 0 ∧
    post_review (post_review ⟨[⟨1, 7, "B", "S", "C", "OR", "97330"⟩], [], 2, 1⟩
        "b" "h/" ⟨some 2, some 1, some 5, none⟩).1 "b" "h/"
        ⟨some 2, some 1, some 5, none⟩
      = ((post_review ⟨[⟨1, 7, "B", "S", "C", "OR", "97330"⟩], [], 2, 1⟩
          "b" "h/" ⟨some 2, some 1, some 5, none⟩).1,
         Response.obj ERROR_CONFLICT 409) :=
  ⟨C3_pair_uniqueness.1 _ 2 1,
   C3_pair_uniqueness.2.1 _ "b" "h/" ⟨some 2, some 1, some 5, none⟩ 2 1 rfl rfl rfl,
   C3_pair_uniqueness.2.2 _ "b" "h/" ⟨some 2, some 1, some 5, none⟩ rfl⟩

/-- C4 counterexample: with `stars = 100` all three application-level
checks pass (fields present, business 1 exists, no prior review for the
pair), yet the INSERT violates the table's `CHECK (stars BETWEEN 0 and
5)`, so `post_review` answers the except-branch 500 with nothing
inserted — not 201 as the claim's final clause states. -/
theorem C4_post_review_precedence_counterexample :
    post_review ⟨[⟨1, 7, "B", "S", "C", "OR", "97330"⟩], [], 2, 1⟩ "hb" "h/"
        ⟨some 5, some 1, some 100, none⟩
      = (⟨[⟨1, 7, "B", "S", "C", "OR", "97330"⟩], [], 2, 1⟩,
         Response.obj ERROR_UNABLE_CREATE_REVIEW 500) ∧
    ((post_review ⟨[⟨1, 7, "B", "S", "C", "OR", "97330"⟩], [], 2, 1⟩ "hb" "h/"
        ⟨some 5, some 1, some 100, none⟩).2).status ≠ 201 := by
  exact ⟨by decide, by decide⟩

/-- C4 amended: `post_review` classifies requests in order: missing
required field → 400; unknown business → 404; existing
`(user_id, business_id)` pair → 409; otherwise the INSERT runs — when
`stars` lies in the storage CHECK range 0–5 the review is inserted and
the answer is 201 with a `business` URL in place of the raw
`business_id`, a `self` URL, and `review_text` defaulting to the empty
string when absent; a `stars` value outside 0–5 fails the INSERT's CHECK
constraint and is answered 500 with nothing inserted. -/
theorem C4_post_review_precedence (st : DBState) (base root : String)
    (c : ReviewContent) :
    ((c.user_id = none ∨ c.business_id = none ∨ c.stars = none) →
      post_review st base root c = (st, Response.obj ERROR_BAD_REQUEST 400)) ∧
    (∀ u b s, c.user_id = some u → c.business_id = some b → c.stars = some s →
      (st.businesses.any (fun x => x.id == b) = false →
        post_review st base root c = (st, Response.obj ERROR_NOT_FOUND 404)) ∧
      (st.businesses.any (fun x => x.id == b) = true →
        st.reviews.any (fun r => r.user_id == u && r.business_id == b) = true →
        post_review st base root c = (st, Response.obj ERROR_CONFLICT 409)) ∧
      (st.businesses.any (fun x => x.id == b) = true →
        st.reviews.any (fun r => r.user_id == u && r.business_id == b) = false →
        0 ≤ s → s ≤ 5 →
        post_review st base root c
          = ({ st with
               reviews := st.reviews
                 ++ [⟨st.nextReviewId, u, b, s, c.review_text.getD ""⟩],
               nextReviewId := st.nextReviewId + 1 },
             Response.obj
               [("id", JVal.jint st.nextReviewId), ("user_id", JVal.jint u),
                ("business", JVal.jstr (root ++ "businesses/" ++ toString b)),
                ("stars", JVal.jint s),
                ("review_text", JVal.jstr (c.review_text.getD "")),
                ("self", JVal.jstr (base ++ "/" ++ toString st.nextReviewId))] 201) ∧
        lookupField ((post_review st base root c).2).body "business"
          = some (JVal.jstr (root ++ "businesses/" ++ toString b)) ∧
        lookupField ((post_review st base root c).2).body "business_id" = none ∧
        lookupField ((post_review st base root c).2).body "self"
          = some (JVal.jstr (base ++ "/" ++ toString st.nextReviewId)) ∧
        lookupField ((post_review st base root c).2).body "review_text"
          = some (JVal.jstr (c.review_text.getD ""))) ∧
      (st.businesses.any (fun x => x.id == b) = true →
        st.reviews.any (fun r => r.user_id == u && r.business_id == b) = false →
        (s < 0 ∨ 5 < s) →
        post_review st base root c
          = (st, Response.obj ERROR_UNABLE_CREATE_REVIEW 500))) := by
  constructor
  · intro h
    rcases c with ⟨cu, cb, cs, ct⟩
    rcases h with h | h | h
    · subst h; cases cb <;> cases cs <;> rfl
    · subst h; cases cu <;> cases cs <;> rfl
    · subst h; cases cu <;> cases cb <;> rfl
  · intro u b s hcu hcb hcs
    rcases c with ⟨cu, cb, cs, ct⟩
    obtain rfl : cu = some u := hcu
    obtain rfl : cb = some b := hcb
    obtain rfl : cs = some s := hcs
    refine ⟨?_, ?_, ?_, ?_⟩
    · intro hb
      simp [post_review, hb]
    · intro hb hr
      simp [post_review, hb, hr]
    · intro hb hr h0 h5
      have hrg : 0 ≤ s ∧ s ≤ 5 := ⟨h0, h5⟩
      have hpost : post_review st base root ⟨some u, some b, some s, ct⟩
          = ({ st with
               reviews := st.reviews ++ [⟨st.nextReviewId, u, b, s, ct.getD ""⟩],
               nextReviewId := st.nextReviewId + 1 },
             Response.obj
               [("id", JVal.jint st.nextReviewId), ("user_id", JVal.jint u),
                ("business", JVal.jstr (root ++ "businesses/" ++ toString b)),
                ("stars", JVal.jint s),
                ("review_text", JVal.jstr (ct.getD "")),
                ("self", JVal.jstr (base ++ "/" ++ toString st.nextReviewId))] 201) := by
        simp [post_review, hb, hr, hrg]
      refine ⟨hpost, ?_, ?_, ?_, ?_⟩ <;> rw [hpost] <;>
        simp [lookupField, Response.body]
    · intro hb hr hout
      have hrg : ¬(0 ≤ s ∧ s ≤ 5) := by omega
      simp [post_review, hb, hr, hrg]

/-- C4 witness: a concrete successful creation (stars within range), its
shaped body, and a concrete out-of-range POST answered 500. -/
theorem C4_post_review_precedence_witness :
    post_review ⟨[⟨1, 7, "B", "S", "C", "OR", "97330"⟩], [], 2, 1⟩ "hb" "h/"
        ⟨some 5, some 1, some 4, none⟩
      = (⟨[⟨1, 7, "B", "S", "C", "OR", "97330"⟩], [⟨1, 5, 1, 4, ""⟩], 2, 2⟩,
         Response.obj
           [("id", JVal.jint 1), ("user_id", JVal.jint 5),
            ("business", JVal.jstr "h/businesses/1"),
            ("stars", JVal.jint 4), ("review_text", JVal.jstr ""),
            ("self", JVal.jstr "hb/1")] 201) ∧
    lookupField ((post_review ⟨[⟨1, 7, "B", "S", "C", "OR", "97330"⟩], [], 2, 1⟩
        "hb" "h/" ⟨some 5, some 1, some 4, none⟩).2).body "business_id" = none ∧
    post_review ⟨[⟨1, 7, "B", "S", "C", "OR", "97330"⟩], [], 2, 1⟩ "hb" "h/"
        ⟨some 5, some 1, some 7, none⟩
      = (⟨[⟨1, 7, "B", "S", "C", "OR", "97330"⟩], [], 2, 1⟩,
         Response.obj ERROR_UNABLE_CREATE_REVIEW 500) :=
  ⟨((C4_post_review_precedence ⟨[⟨1, 7, "B", "S", "C", "OR", "97330"⟩], [], 2, 1⟩
      "hb" "h/" ⟨some 5, some 1, some 4, none⟩).2 5 1 4 rfl rfl rfl).2.2.1 rfl rfl
      (by decide) (by decide) |>.1,
   ((C4_post_review_precedence ⟨[⟨1, 7, "B", "S", "C", "OR", "97330"⟩], [], 2, 1⟩
      "hb" "h/" ⟨some 5, some 1, some 4, none⟩).2 5 1 4 rfl rfl rfl).2.2.1 rfl rfl
      (by decide) (by decide) |>.2.2.1,
   ((C4_post_review_precedence ⟨[⟨1, 7, "B", "S", "C", "OR", "97330"⟩], [], 2, 1⟩
      "hb" "h/" ⟨some 5, some 1, some 7, none⟩).2 5 1 7 rfl rfl rfl).2.2.2 rfl rfl
      (by decide)⟩

/-- C5 counterexample: on a store holding business 1 with stored zip
code "97330", the owner-scoped listing (`get_bussiness_by_owner`) returns
`zip_code` as a JSON string, not an integer, and the create response
echoes a client-sent string as a string — so not every business
representation surfaces `zip_code` as an integer. -/
theorem C5_zip_code_counterexample :
    get_bussiness_by_owner
        ⟨[⟨1, 7, "Biz", "1 Main", "Corvallis", "OR", "97330"⟩], [], 2, 1⟩
        "http://h/" 7
      = Response.arr [[("id", JVal.jint 1), ("owner_id", JVal.jint 7),
          ("name", JVal.jstr "Biz"), ("street_address", JVal.jstr "1 Main"),
          ("city", JVal.jstr "Corvallis"), ("state", JVal.jstr "OR"),
          ("zip_code", JVal.jstr "97330"),
          ("self", JVal.jstr "http://h/businesses/1")]] 200 ∧
    (JVal.jstr "97330").isJInt = false ∧
    lookupField ((post_businesses ⟨[], [], 1, 1⟩ "http://h/businesses"
        ⟨some 7, some "Biz", some "1 Main", some "Corvallis", some "OR",
         some (JVal.jstr "97330")⟩).2).body "zip_code"
      = some (JVal.jstr "97330") := by
  refine ⟨by decide, rfl, by decide⟩

/-- C5 amended: only the single-business GET and the paginated business
listing coerce `zip_code` to an integer; the create and replace handlers
echo the client-supplied value unchanged, and the owner-scoped listing
returns the stored 5-character string uncoerced. -/
theorem C5_zip_code_amended (st : DBState) (root base : String) :
    (∀ (id z : Int) (b : Business),
      st.businesses.filter (fun x => x.id == id) = [b] →
      pyInt? b.zip_code = some z →
      get_business st root id
        = some (Response.obj
            [("id", JVal.jint b.id), ("owner_id", JVal.jint b.owner_id),
             ("name", JVal.jstr b.name),
             ("street_address", JVal.jstr b.street_address),
             ("city", JVal.jstr b.city), ("state", JVal.jstr b.state),
             ("zip_code", JVal.jint z),
             ("self", JVal.jstr (root ++ "businesses/" ++ toString id))] 200)) ∧
    (∀ (offset limit : Int) (es : List Obj) (nx : Option String),
      get_businesses st root base offset limit = some (Response.page es nx 200) →
      ∀ e ∈ es, ∃ z : Int, lookupField e "zip_code" = some (JVal.jint z)) ∧
    (∀ b : Business,
      lookupField (ownerBusinessEntry root b) "zip_code"
        = some (JVal.jstr b.zip_code)) ∧
    (∀ oid : Int, get_bussiness_by_owner st root oid
      = Response.arr ((st.businesses.filter (fun b => b.owner_id == oid)).map
          (ownerBusinessEntry root)) 200) ∧
    (∀ (c : BusinessContent) (z : JVal), c.zip_code = some z →
      ((post_businesses st base c).2).status = 201 →
      lookupField ((post_businesses st base c).2).body "zip_code" = some z) ∧
    (∀ (c : BusinessContent) (z : JVal) (id : Int), c.zip_code = some z →
      ((put_business st root id c).2).status = 200 →
      lookupField ((put_business st root id c).2).body "zip_code" = some z) := by
  refine ⟨?_, ?_, ?_, ?_, ?_, ?_⟩
  · intro id z b hf hz
    unfold get_business
    rw [hf]
    simp [oneOrNone?, hz]
  · intro offset limit es nx h
    unfold get_businesses at h
    rcases hw : sqlWindow st.businesses (limit + 1) offset with _ | rows
    · rw [hw] at h
      exact absurd h (by simp)
    rw [hw] at h
    dsimp only at h
    rcases hsh : shapeBusinessRows root (pySliceTo rows limit) with _ | entries
    · rw [hsh] at h
      exact absurd h (by simp)
    rw [hsh] at h
    simp only [Option.some.injEq, Response.page.injEq] at h
    obtain ⟨rfl, -, -⟩ := h
    exact shapeBusinessRows_zip_jint root _ _ hsh
  · intro b
    simp [lookupField, ownerBusinessEntry]
  · intro oid
    rfl
  · intro c z hz h201
    rcases c with ⟨o, nm, sa, ci, s2, zc⟩
    obtain rfl : zc = some z := hz
    cases o <;> cases nm <;> cases sa <;> cases ci <;> cases s2 <;>
      simp [post_businesses, Response.status, Response.body, lookupField] at h201 ⊢
  · intro c z id hz h200
    rcases c with ⟨o, nm, sa, ci, s2, zc⟩
    obtain rfl : zc = some z := hz
    unfold put_business at h200 ⊢
    rcases honn : oneOrNone? (st.businesses.filter fun b => b.id == id)
      with _ | (_ | b0) <;> rw [honn] at h200 ⊢
    · simp [Response.status] at h200
    · simp [Response.status] at h200
    · cases o <;> cases nm <;> cases sa <;> cases ci <;> cases s2 <;>
        simp [Response.status, Response.body, lookupField] at h200 ⊢

/-- C5 amended witness: the single-business GET surfaces the stored
"97330" as the integer 97330, while the owner-list entry keeps it a
string. -/
theorem C5_zip_code_amended_witness :
    get_business ⟨[⟨1, 7, "Biz", "1 Main", "Corvallis", "OR", "97330"⟩], [], 2, 1⟩
        "h/" 1
      = some (Response.obj
          [("id", JVal.jint 1), ("owner_id", JVal.jint 7),
           ("name", JVal.jstr "Biz"), ("street_address", JVal.jstr "1 Main"),
           ("city", JVal.jstr "Corvallis"), ("state", JVal.jstr "OR"),
           ("zip_code", JVal.jint 97330),
           ("self", JVal.jstr "h/businesses/1")] 200) ∧
    lookupField (ownerBusinessEntry "h/"
        ⟨1, 7, "Biz", "1 Main", "Corvallis", "OR", "97330"⟩) "zip_code"
      = some (JVal.jstr "97330") :=
  ⟨(C5_zip_code_amended
      ⟨[⟨1, 7, "Biz", "1 Main", "Corvallis", "OR", "97330"⟩], [], 2, 1⟩ "h/" "hb").1
      1 97330 ⟨1, 7, "Biz", "1 Main", "Corvallis", "OR", "97330"⟩ (by decide) (by decide),
   (C5_zip_code_amended
      ⟨[⟨1, 7, "Biz", "1 Main", "Corvallis", "OR", "97330"⟩], [], 2, 1⟩ "h/" "hb").2.2.1
      ⟨1, 7, "Biz", "1 Main", "Corvallis", "OR", "97330"⟩⟩

/-- C6 counterexample: review 1 exists and the body `{stars: 100}`
contains `stars` but not `review_text`, yet `put_review` does not update
the stars: the UPDATE violates the table's `CHECK (stars BETWEEN 0 and
5)` and the handler (no try/except) surfaces an unhandled fault (`none`)
with the state unchanged — not the updated 200 representation the claim
states. -/
theorem C6_put_review_frame_counterexample :
    put_review ⟨[], [⟨1, 5, 1, 4, "ok"⟩], 1, 2⟩ "h/" 1 ⟨some 100, none⟩
      = (⟨[], [⟨1, 5, 1, 4, "ok"⟩], 1, 2⟩, none) := by
  decide

/-- C6 amended: for every existing review, a `PUT /reviews/{id}` whose
body has `stars` within the storage CHECK range 0–5 but not `review_text`
updates only the stars of the addressed review: every other stored field
and every other row is unchanged, and the 200 response shows the new
stars with the previously stored `review_text`; a body without `stars`
answers 400 and leaves the state unchanged; a `stars` value outside 0–5
makes the UPDATE violate the storage CHECK, surfacing an unhandled fault
with no modification. -/
theorem C6_put_review_frame (st : DBState) (root : String) (rid : Int) :
    (∀ (c : ReviewPutContent) (r : Review) (s : Int),
      st.reviews.filter (fun x => x.id == rid) = [r] →
      c.stars = some s → c.review_text = none →
      0 ≤ s → s ≤ 5 →
      (put_review st root rid c).1.businesses = st.businesses ∧
      (put_review st root rid c).1.reviews
        = st.reviews.map (fun x => if x.id == rid then { x with stars := s } else x) ∧
      (put_review st root rid c).2
        = some (Response.obj
            [("id", JVal.jint r.id), ("user_id", JVal.jint r.user_id),
             ("business", JVal.jstr (root ++ "businesses/" ++ toString r.business_id)),
             ("stars", JVal.jint s), ("review_text", JVal.jstr r.review_text),
             ("self", JVal.jstr (root ++ "reviews/" ++ toString rid))] 200)) ∧
    (∀ c : ReviewPutContent, c.stars = none →
      put_review st root rid c = (st, some (Response.obj ERROR_BAD_REQUEST 400))) ∧
    (∀ (c : ReviewPutContent) (s : Int), c.stars = some s →
      (st.reviews.any fun x => x.id == rid) = true →
      (s < 0 ∨ 5 < s) →
      put_review st root rid c = (st, none)) := by
  refine ⟨?_, ?_, ?_⟩
  · intro c r s hf hs ht h0 h5
    have hrg : 0 ≤ s ∧ s ≤ 5 := ⟨h0, h5⟩
    have hrmem : r ∈ st.reviews.filter (fun x => x.id == rid) := by
      rw [hf]
      exact List.mem_singleton.mpr rfl
    obtain ⟨hrin, hrid⟩ := List.mem_filter.mp hrmem
    have hany : (st.reviews.any fun x => x.id == rid) = true :=
      List.any_eq_true.mpr ⟨r, hrin, hrid⟩
    have hne : (updateParts c == []) = false := by
      simp [updateParts, hs]
    have happ : ∀ x : Review, applyReviewUpdate c x = { x with stars := s } := by
      intro x
      cases x
      simp [applyReviewUpdate, hs, ht]
    have hfm : ((st.reviews.map
          (fun x => if x.id == rid then applyReviewUpdate c x else x)).filter
            (fun x => x.id == rid))
        = [applyReviewUpdate c r] := by
      rw [filter_map_applyReviewUpdate, hf]
      rfl
    have hmain : put_review st root rid c
        = ({ st with
             reviews := st.reviews.map
               (fun x => if x.id == rid then applyReviewUpdate c x else x) },
           some (Response.obj
             [("id", JVal.jint r.id), ("user_id", JVal.jint r.user_id),
              ("business", JVal.jstr (root ++ "businesses/" ++ toString r.business_id)),
              ("stars", JVal.jint s), ("review_text", JVal.jstr r.review_text),
              ("self", JVal.jstr (root ++ "reviews/" ++ toString rid))] 200)) := by
      unfold put_review
      rw [hs]
      dsimp only
      rw [hne, hany]
      simp only [Bool.false_eq_true, if_false, Bool.not_true, if_pos hrg]
      rw [hfm]
      simp [oneOrNone?, happ r]
    refine ⟨by rw [hmain], ?_, by rw [hmain]⟩
    rw [hmain]
    exact List.map_congr_left (fun x _ => by rw [happ x])
  · intro c hs
    simp [put_review, hs]
  · intro c s hs hany hout
    have hrg : ¬(0 ≤ s ∧ s ≤ 5) := by omega
    have hne : (updateParts c == []) = false := by
      simp [updateParts, hs]
    unfold put_review
    rw [hs]
    dsimp only
    rw [hne, hany]
    simp only [Bool.false_eq_true, if_false, Bool.not_true, if_neg hrg]

/-- C6 witness: updating review 2 with only stars 5 preserves its text. -/
theorem C6_put_review_frame_witness :
    (put_review ⟨[], [⟨1, 5, 1, 4, "ok"⟩, ⟨2, 6, 1, 3, "meh"⟩], 1, 3⟩ "h/" 2
        ⟨some 5, none⟩).1.reviews
      = [⟨1, 5, 1, 4, "ok"⟩, ⟨2, 6, 1, 5, "meh"⟩] ∧
    (put_review ⟨[], [⟨1, 5, 1, 4, "ok"⟩, ⟨2, 6, 1, 3, "meh"⟩], 1, 3⟩ "h/" 2
        ⟨some 5, none⟩).2
      = some (Response.obj
          [("id", JVal.jint 2), ("user_id", JVal.jint 6),
           ("business", JVal.jstr "h/businesses/1"),
           ("stars", JVal.jint 5), ("review_text", JVal.jstr "meh"),
           ("self", JVal.jstr "h/reviews/2")] 200) := by
  have h := (C6_put_review_frame ⟨[], [⟨1, 5, 1, 4, "ok"⟩, ⟨2, 6, 1, 3, "meh"⟩], 1, 3⟩
      "h/" 2).1 ⟨some 5, none⟩ ⟨2, 6, 1, 3, "meh"⟩ 5 (by decide) rfl rfl
      (by decide) (by decide)
  exact ⟨by rw [h.2.1]; decide, h.2.2⟩

/-- C8: in `put_business` the existence check precedes any access to the
request body: when no business row matches the id, the answer is the
business not-found 404 for every body, and the missing-field 400 can only
happen when the business exists. -/
theorem C8_put_business_check_first (st : DBState) (root : String) (id : Int) :
    (∀ c : BusinessContent, st.businesses.filter (fun b => b.id == id) = [] →
      put_business st root id c = (st, Response.obj ERROR_NOT_FOUND 404)) ∧
    (∀ c : BusinessContent,
      (put_business st root id c).2 = Response.obj ERROR_BAD_REQUEST 400 →
      ∃ b ∈ st.businesses, b.id = id) := by
  constructor
  · intro c h
    unfold put_business
    rw [h]
    rfl
  · intro c h400
    unfold put_business at h400
    rcases honn : oneOrNone? (st.businesses.filter fun b => b.id == id)
      with _ | (_ | b)
    · rw [honn] at h400
      exact absurd h400 (by simp [ERROR_UNABLE_CREATE_BUSINESS, ERROR_BAD_REQUEST])
    · rw [honn] at h400
      exact absurd h400 (by simp [ERROR_NOT_FOUND, ERROR_BAD_REQUEST])
    · have hb : b ∈ st.businesses.filter (fun b => b.id == id) := by
        rw [oneOrNone?_eq_singleton honn]
        exact List.mem_singleton.mpr rfl
      obtain ⟨hbin, hbid⟩ := List.mem_filter.mp hb
      exact ⟨b, hbin, by simpa using hbid⟩

/-- C8 witness: unknown id answers 404 whatever the body omits; a 400 on
a known id implies the business exists. -/
theorem C8_put_business_check_first_witness :
    put_business ⟨[], [], 1, 1⟩ "h/" 9 ⟨none, none, none, none, none, none⟩
      = (⟨[], [], 1, 1⟩, Response.obj ERROR_NOT_FOUND 404) ∧
    ∃ b ∈ ([⟨1, 7, "B", "S", "C", "OR", "97330"⟩] : List Business), b.id = 1 :=
  ⟨(C8_put_business_check_first ⟨[], [], 1, 1⟩ "h/" 9).1
      ⟨none, none, none, none, none, none⟩ rfl,
   (C8_put_business_check_first ⟨[⟨1, 7, "B", "S", "C", "OR", "97330"⟩], [], 2, 1⟩
      "h/" 1).2 ⟨some 7, none, none, none, none, none⟩ (by decide)⟩

/-- C9: in `put_review` the branch answering
`{'Error': 'No valid fields provided to update'}` is unreachable: a body
without `stars` already got the fixed bad-request error, and a body with
`stars` makes `update_parts` non-empty. -/
theorem C9_no_valid_fields_unreachable (st : DBState) (root : String) (id : Int)
    (c : ReviewPutContent) :
    (put_review st root id c).2 ≠ some (Response.obj ERROR_NO_VALID_FIELDS 400) ∧
    (c.stars.isSome = true → updateParts c ≠ []) ∧
    (c.stars = none →
      put_review st root id c = (st, some (Response.obj ERROR_BAD_REQUEST 400))) := by
  refine ⟨?_, ?_, ?_⟩
  · cases hs : c.stars with
    | none =>
      simp [put_review, hs, ERROR_BAD_REQUEST, ERROR_NO_VALID_FIELDS]
    | some s =>
      have hne : (updateParts c == []) = false := by
        simp [updateParts, hs]
      unfold put_review
      rw [hs]
      dsimp only
      simp only [hne, Bool.false_eq_true, if_false]
      split
      · simp [ERROR_REVIEW_NOT_FOUND, ERROR_NO_VALID_FIELDS]
      · split
        · split <;> simp [ERROR_REVIEW_NOT_FOUND, ERROR_NO_VALID_FIELDS]
        · simp
  · intro hs
    simp [updateParts, hs]
  · intro hs
    simp [put_review, hs]

/-- C9 witness at a concrete body with `stars` present. -/
theorem C9_no_valid_fields_unreachable_witness :
    (put_review ⟨[], [⟨1, 2, 3, 4, "t"⟩], 1, 2⟩ "h/" 1 ⟨some 5, none⟩).2
      ≠ some (Response.obj ERROR_NO_VALID_FIELDS 400) ∧
    updateParts ⟨some 5, none⟩ ≠ [] :=
  ⟨(C9_no_valid_fields_unreachable ⟨[], [⟨1, 2, 3, 4, "t"⟩], 1, 2⟩ "h/" 1
      ⟨some 5, none⟩).1,
   (C9_no_valid_fields_unreachable ⟨[], [⟨1, 2, 3, 4, "t"⟩], 1, 2⟩ "h/" 1
      ⟨some 5, none⟩).2.1 rfl⟩

/-- C10: a listing request with `limit = -1` issues the query with SQL
`LIMIT 0`, so for every store state the entries list is empty, yet the
response always carries a `next` URL whose offset is `offset - 1` with
the same `limit = -1`. -/
theorem C10_negative_limit (st : DBState) (root bbase rbase : String) (offset : Int)
    (hoff : 0 ≤ offset) :
    sqlWindow st.businesses ((-1) + 1) offset = some [] ∧
    sqlWindow st.reviews ((-1) + 1) offset = some [] ∧
    get_businesses st root bbase offset (-1)
      = some (Response.page [] (some (nextUrl bbase (offset - 1) (-1))) 200) ∧
    get_reviews st root rbase offset (-1)
      = some (Response.page [] (some (nextUrl rbase (offset - 1) (-1))) 200) := by
  have hoff' : ¬(offset < 0) := not_lt.mpr hoff
  have hw : ∀ {α : Type} (rows : List α), sqlWindow rows ((-1) + 1) offset = some [] := by
    intro α rows
    simp [sqlWindow, hoff']
  have hsub : offset + (-1) = offset - 1 := by ring
  refine ⟨hw st.businesses, hw st.reviews, ?_, ?_⟩
  · unfold get_businesses
    rw [hw st.businesses]
    simp [pySliceTo, shapeBusinessRows, nextUrl, hsub]
  · unfold get_reviews
    rw [hw st.reviews]
    simp [pySliceTo, nextUrl, hsub]

/-- C1: both paginated listings with non-negative `offset` and `limit`
fetch `limit + 1` rows at `offset`, return the first `limit` of them as
`entries` (hence at most `limit` entries), and carry a `next` URL exactly
when the fetch returned more than `limit` rows, with `offset + limit` as
the new offset and the same limit.  (For the business listing we assume
the stored zip codes in the window parse as integers, since `int()`
would otherwise abort the request.) -/
theorem C1_pagination (st : DBState) (root bbase rbase : String) (offset limit : Nat)
    (hz : ∀ b ∈ ((st.businesses.drop offset).take (limit + 1)).take limit,
      (pyInt? b.zip_code).isSome = true) :
    sqlWindow st.businesses ((limit : Int) + 1) (offset : Int)
      = some ((st.businesses.drop offset).take (limit + 1)) ∧
    sqlWindow st.reviews ((limit : Int) + 1) (offset : Int)
      = some ((st.reviews.drop offset).take (limit + 1)) ∧
    (∃ entries,
      shapeBusinessRows root (((st.businesses.drop offset).take (limit + 1)).take limit)
        = some entries ∧
      entries.length ≤ limit ∧
      get_businesses st root bbase offset limit
        = some (Response.page entries
            (if limit < ((st.businesses.drop offset).take (limit + 1)).length
             then some (nextUrl bbase ((offset : Int) + limit) limit) else none) 200)) ∧
    get_reviews st root rbase offset limit
      = some (Response.page
          ((((st.reviews.drop offset).take (limit + 1)).take limit).map
            (reviewListEntry root))
          (if limit < ((st.reviews.drop offset).take (limit + 1)).length
           then some (nextUrl rbase ((offset : Int) + limit) limit) else none) 200) := by
  have hcast : ((limit : Int) + 1) = ((limit + 1 : Nat) : Int) := by push_cast; ring
  refine ⟨?_, ?_, get_businesses_nat st root bbase offset limit hz,
    get_reviews_nat st root rbase offset limit⟩
  · rw [hcast, sqlWindow_natCast]
  · rw [hcast, sqlWindow_natCast]

/-- C1 witness: a concrete store with three rows per table, `offset = 0`,
`limit = 2`: two entries and a `next` URL at offset 2. -/
theorem C1_pagination_witness :
    (∃ entries,
      shapeBusinessRows "h/"
          ((([⟨1, 7, "B", "S", "C", "OR", "97330"⟩, ⟨2, 7, "B2", "S2", "C2", "WA", "98101"⟩,
              ⟨3, 8, "B3", "S3", "C3", "ID", "83701"⟩] : List Business).drop 0).take 3
            |>.take 2)
        = some entries ∧
      entries.length ≤ 2 ∧
      get_businesses ⟨[⟨1, 7, "B", "S", "C", "OR", "97330"⟩,
          ⟨2, 7, "B2", "S2", "C2", "WA", "98101"⟩,
          ⟨3, 8, "B3", "S3", "C3", "ID", "83701"⟩],
        [⟨1, 5, 1, 4, "a"⟩, ⟨2, 6, 1, 3, "b"⟩, ⟨3, 5, 2, 2, "c"⟩], 4, 4⟩ "h/" "hb" 0 2
        = some (Response.page entries
            (if 2 < ((([⟨1, 7, "B", "S", "C", "OR", "97330"⟩,
                ⟨2, 7, "B2", "S2", "C2", "WA", "98101"⟩,
                ⟨3, 8, "B3", "S3", "C3", "ID", "83701"⟩] : List Business).drop 0).take 3).length
             then some (nextUrl "hb" ((0 : Nat) + (2 : Nat) : Int) 2) else none) 200)) ∧
    get_reviews ⟨[⟨1, 7, "B", "S", "C", "OR", "97330"⟩,
        ⟨2, 7, "B2", "S2", "C2", "WA", "98101"⟩,
        ⟨3, 8, "B3", "S3", "C3", "ID", "83701"⟩],
      [⟨1, 5, 1, 4, "a"⟩, ⟨2, 6, 1, 3, "b"⟩, ⟨3, 5, 2, 2, "c"⟩], 4, 4⟩ "h/" "hr" 0 2
      = some (Response.page
          (((([⟨1, 5, 1, 4, "a"⟩, ⟨2, 6, 1, 3, "b"⟩, ⟨3, 5, 2, 2, "c"⟩] : List Review).drop 0
            |>.take 3).take 2).map (reviewListEntry "h/"))
          (if 2 < ((([⟨1, 5, 1, 4, "a"⟩, ⟨2, 6, 1, 3, "b"⟩,
              ⟨3, 5, 2, 2, "c"⟩] : List Review).drop 0).take 3).length
           then some (nextUrl "hr" ((0 : Nat) + (2 : Nat) : Int) 2) else none) 200) :=
  ⟨(C1_pagination ⟨[⟨1, 7, "B", "S", "C", "OR", "97330"⟩,
      ⟨2, 7, "B2", "S2", "C2", "WA", "98101"⟩,
      ⟨3, 8, "B3", "S3", "C3", "ID", "83701"⟩],
    [⟨1, 5, 1, 4, "a"⟩, ⟨2, 6, 1, 3, "b"⟩, ⟨3, 5, 2, 2, "c"⟩], 4, 4⟩
      "h/" "hb" "hr" 0 2 (by decide)).2.2.1,
   (C1_pagination ⟨[⟨1, 7, "B", "S", "C", "OR", "97330"⟩,
      ⟨2, 7, "B2", "S2", "C2", "WA", "98101"⟩,
      ⟨3, 8, "B3", "S3", "C3", "ID", "83701"⟩],
    [⟨1, 5, 1, 4, "a"⟩, ⟨2, 6, 1, 3, "b"⟩, ⟨3, 5, 2, 2, "c"⟩], 4, 4⟩
      "h/" "hb" "hr" 0 2 (by decide)).2.2.2⟩

/-- C7: every entry of the global review listing carries the raw
`business_id` and a `self` URL and has no `business` field, while
`GET /reviews/{id}` replaces `business_id` with a `business` URL and has
no raw `business_id` field. -/
theorem C7_review_shaping_asymmetry (st : DBState) (root bbase : String)
    (offset limit : Nat) :
    (∀ r : Review,
      lookupField (reviewListEntry root r) "business_id"
        = some (JVal.jint r.business_id) ∧
      lookupField (reviewListEntry root r) "self"
        = some (JVal.jstr (root ++ "reviews/" ++ toString r.id)) ∧
      lookupField (reviewListEntry root r) "business" = none) ∧
    get_reviews st root bbase offset limit
      = some (Response.page
          ((((st.reviews.drop offset).take (limit + 1)).take limit).map
            (reviewListEntry root))
          (if limit < ((st.reviews.drop offset).take (limit + 1)).length
           then some (nextUrl bbase ((offset : Int) + limit) limit) else none) 200) ∧
    (∀ (id : Int) (r : Review), st.reviews.filter (fun x => x.id == id) = [r] →
      get_review st root id
        = some (Response.obj
            [("id", JVal.jint r.id), ("user_id", JVal.jint r.user_id),
             ("business", JVal.jstr (root ++ "businesses/" ++ toString r.business_id)),
             ("stars", JVal.jint r.stars), ("review_text", JVal.jstr r.review_text),
             ("self", JVal.jstr (root ++ "reviews/" ++ toString id))] 200) ∧
      lookupField ((get_review st root id).getD (Response.obj [] 0)).body "business"
        = some (JVal.jstr (root ++ "businesses/" ++ toString r.business_id)) ∧
      lookupField ((get_review st root id).getD (Response.obj [] 0)).body "business_id"
        = none) := by
  refine ⟨?_, get_reviews_nat st root bbase offset limit, ?_⟩
  · intro r
    refine ⟨?_, ?_, ?_⟩ <;> simp [lookupField, reviewListEntry]
  · intro id r hf
    have hget : get_review st root id
        = some (Response.obj
            [("id", JVal.jint r.id), ("user_id", JVal.jint r.user_id),
             ("business", JVal.jstr (root ++ "businesses/" ++ toString r.business_id)),
             ("stars", JVal.jint r.stars), ("review_text", JVal.jstr r.review_text),
             ("self", JVal.jstr (root ++ "reviews/" ++ toString id))] 200) := by
      unfold get_review
      rw [hf]
      rfl
    refine ⟨hget, ?_, ?_⟩ <;> rw [hget] <;> simp [lookupField, Response.body]

/-- C7 witness on a concrete store. -/
theorem C7_review_shaping_asymmetry_witness :
    lookupField (reviewListEntry "h/" ⟨1, 5, 2, 4, "ok"⟩) "business_id"
      = some (JVal.jint 2) ∧
    lookupField (reviewListEntry "h/" ⟨1, 5, 2, 4, "ok"⟩) "business" = none ∧
    get_review ⟨[], [⟨1, 5, 2, 4, "ok"⟩], 1, 2⟩ "h/" 1
      = some (Response.obj
          [("id", JVal.jint 1), ("user_id", JVal.jint 5),
           ("business", JVal.jstr "h/businesses/2"),
           ("stars", JVal.jint 4), ("review_text", JVal.jstr "ok"),
           ("self", JVal.jstr "h/reviews/1")] 200) :=
  ⟨((C7_review_shaping_asymmetry ⟨[], [⟨1, 5, 2, 4, "ok"⟩], 1, 2⟩ "h/" "hb" 0 3).1
      ⟨1, 5, 2, 4, "ok"⟩).1,
   ((C7_review_shaping_asymmetry ⟨[], [⟨1, 5, 2, 4, "ok"⟩], 1, 2⟩ "h/" "hb" 0 3).1
      ⟨1, 5, 2, 4, "ok"⟩).2.2,
   ((C7_review_shaping_asymmetry ⟨[], [⟨1, 5, 2, 4, "ok"⟩], 1, 2⟩ "h/" "hb" 0 3).2.2
      1 ⟨1, 5, 2, 4, "ok"⟩ rfl).1⟩

/-- C10 witness on a concrete store and offset 2. -/
theorem C10_negative_limit_witness :
    get_businesses ⟨[⟨1, 7, "B", "S", "C", "OR", "97330"⟩], [], 2, 1⟩ "h/" "hb" 2 (-1)
      = some (Response.page [] (some (nextUrl "hb" 1 (-1))) 200) ∧
    get_reviews ⟨[⟨1, 7, "B", "S", "C", "OR", "97330"⟩], [], 2, 1⟩ "h/" "hr" 2 (-1)
      = some (Response.page [] (some (nextUrl "hr" 1 (-1))) 200) :=
  ⟨(C10_negative_limit ⟨[⟨1, 7, "B", "S", "C", "OR", "97330"⟩], [], 2, 1⟩
      "h/" "hb" "hr" 2 (by decide)).2.2.1,
   (C10_negative_limit ⟨[⟨1, 7, "B", "S", "C", "OR", "97330"⟩], [], 2, 1⟩
      "h/" "hb" "hr" 2 (by decide)).2.2.2⟩

end ReviewMate
